import Mathlib

set_option maxRecDepth 8000

namespace Stoplight

/-! Shallow embedding of the stoplight repository: the raw register backend
    (traffic_light.c), the libgpiod line-request backend (traffic_light_pi5.c)
    and the register layout exercised by gpio_test.c, together with the
    six-phase intersection controller shared by both main loops. -/

/-- GPIO register word offsets, from the defines in traffic_light.c. -/
def GPFSEL0 : Nat := 0

/-- Word index of the set register (GPSET0 in traffic_light.c and gpio_test.c). -/
def GPSET0 : Nat := 7

/-- Word index of the clear register (GPCLR0 in traffic_light.c and gpio_test.c). -/
def GPCLR0 : Nat := 10

/-- Street A (North-South) pin assignments from both controller variants. -/
def STREET_A_RED : Nat := 17

def STREET_A_YELLOW : Nat := 27

def STREET_A_GREEN : Nat := 22

/-- Street B (East-West) pin assignments from both controller variants. -/
def STREET_B_RED : Nat := 23

def STREET_B_YELLOW : Nat := 24

def STREET_B_GREEN : Nat := 25

/-- Timing constants in microseconds, as defined in both controller files. -/
def GREEN_TIME : Nat := 5000000

def YELLOW_TIME : Nat := 1000000

def SAFETY_BUFFER : Nat := 1000000

/-- One 32-bit store into the GPIO register bank: word index and stored value.
    Every raw-backend output operation in traffic_light.c is a single such store. -/
inductive RegWrite where
  | store (regIndex : Nat) (value : Nat)
deriving DecidableEq, Repr

/-- Embedding of the C expression `(uint32_t)(1 << pin)` used to build pin masks. -/
def mask32 (pin : Nat) : Nat := (1 <<< pin) % 2 ^ 32

/-- gpio_set_high from traffic_light.c: store bit mask `1 << pin` to GPSET0. -/
def gpio_set_high (pin : Nat) : RegWrite := .store GPSET0 (mask32 pin)

/-- gpio_set_low from traffic_light.c: store bit mask `1 << pin` to GPCLR0. -/
def gpio_set_low (pin : Nat) : RegWrite := .store GPCLR0 (mask32 pin)

/-- gpio_set_multiple from traffic_light.c: one batched store to GPSET0. -/
def gpio_set_multiple (pin_mask : Nat) : RegWrite := .store GPSET0 (pin_mask % 2 ^ 32)

/-- gpio_clear_multiple from traffic_light.c: one batched store to GPCLR0. -/
def gpio_clear_multiple (pin_mask : Nat) : RegWrite := .store GPCLR0 (pin_mask % 2 ^ 32)

/-- The all-pins mask computed inside all_lights_off in traffic_light.c. -/
def all_pins : Nat :=
  mask32 STREET_A_RED ||| mask32 STREET_A_YELLOW ||| mask32 STREET_A_GREEN |||
  mask32 STREET_B_RED ||| mask32 STREET_B_YELLOW ||| mask32 STREET_B_GREEN

/-- all_lights_off from traffic_light.c: a single batched clear of all six pins. -/
def all_lights_off : List RegWrite := [gpio_clear_multiple all_pins]

/-- set_light_state from traffic_light.c: clear everything, then raise at most one
    lamp per street depending on the two colour characters. -/
def set_light_state (street_a_color street_b_color : Char) : List RegWrite :=
  all_lights_off ++
  (if street_a_color = 'R' then [gpio_set_high STREET_A_RED]
   else if street_a_color = 'Y' then [gpio_set_high STREET_A_YELLOW]
   else if street_a_color = 'G' then [gpio_set_high STREET_A_GREEN]
   else []) ++
  (if street_b_color = 'R' then [gpio_set_high STREET_B_RED]
   else if street_b_color = 'Y' then [gpio_set_high STREET_B_YELLOW]
   else if street_b_color = 'G' then [gpio_set_high STREET_B_GREEN]
   else [])

/-- Hardware semantics of the set/clear register pair: a store to GPSET0 raises
    exactly the masked bits of the output latch, a store to GPCLR0 lowers exactly
    the masked bits (the latch is the 32-bit word of pin levels). -/
def applyWrite (latch : Nat) : RegWrite → Nat
  | .store r v =>
    if r = GPSET0 then latch ||| v
    else if r = GPCLR0 then latch &&& ((2 ^ 32 - 1) ^^^ v)
    else latch

/-- Run a sequence of register stores against the output latch. -/
def applyTrace (latch : Nat) (ws : List RegWrite) : Nat := ws.foldl applyWrite latch

/-- gpio_set_output from traffic_light.c: read the function-select word for the
    pin, clear the 3-bit field at `(pin % 10) * 3`, set pattern 0b001 there, and
    store the word back at word index `pin / 10`. The bank maps word index to
    32-bit register content. -/
def gpio_set_output (pin : Nat) (bank : Nat → Nat) : Nat → Nat :=
  let reg_offset := pin / 10
  let bit_offset := pin % 10 * 3
  let value := bank reg_offset % 2 ^ 32
  let mask := 0b111 <<< bit_offset
  let cleared := value &&& ((2 ^ 32 - 1) ^^^ mask)
  let output_bits := 0b001 <<< bit_offset
  fun i => if i = reg_offset then cleared ||| output_bits else bank i

end Stoplight

namespace Stoplight.Pi5

/-- One libgpiod line-value update issued by traffic_light_pi5.c:
    the line offset and the value written to it. -/
structure LineOp where
  offset : Nat
  value : Nat
deriving DecidableEq, Repr

/-- gpio_set_value_asm from traffic_light_pi5.c: the inline assembly masks the
    value to one bit, then the library sets that single line. -/
def gpio_set_value_asm (offset : Nat) (value : Nat) : LineOp :=
  ⟨offset, value &&& 1⟩

/-- The offsets array shared by all_lights_off and main in traffic_light_pi5.c. -/
def offsets : List Nat :=
  [STREET_A_RED, STREET_A_YELLOW, STREET_A_GREEN,
   STREET_B_RED, STREET_B_YELLOW, STREET_B_GREEN]

/-- all_lights_off from traffic_light_pi5.c: a loop of six individual per-line
    writes of the value zero, one per LED. -/
def all_lights_off : List LineOp := offsets.map (fun o => ⟨o, 0⟩)

/-- set_light_state from traffic_light_pi5.c: turn all six lines off one by one,
    then raise at most one lamp per street. -/
def set_light_state (street_a_color street_b_color : Char) : List LineOp :=
  all_lights_off ++
  (if street_a_color = 'R' then [gpio_set_value_asm STREET_A_RED 1]
   else if street_a_color = 'Y' then [gpio_set_value_asm STREET_A_YELLOW 1]
   else if street_a_color = 'G' then [gpio_set_value_asm STREET_A_GREEN 1]
   else []) ++
  (if street_b_color = 'R' then [gpio_set_value_asm STREET_B_RED 1]
   else if street_b_color = 'Y' then [gpio_set_value_asm STREET_B_YELLOW 1]
   else if street_b_color = 'G' then [gpio_set_value_asm STREET_B_GREEN 1]
   else [])

/-- Semantics of one line-value update: point update of the line-state map. -/
def applyLineOp (st : Nat → Nat) (op : LineOp) : Nat → Nat :=
  fun q => if q = op.offset then op.value else st q

/-- Run a sequence of line updates against the line-state map. -/
def applyLineOps (st : Nat → Nat) (ops : List LineOp) : Nat → Nat :=
  ops.foldl applyLineOp st

/-- The ordered candidate device paths probed by main in traffic_light_pi5.c. -/
def chip_paths : List String :=
  ["/dev/gpiochip0", "/dev/gpiochip4", "gpiochip0", "gpiochip4"]

/-- The probe loop of main in traffic_light_pi5.c: try each candidate path in
    order, stopping at the first successful open. Returns the chosen path (if
    any) together with the number of open attempts actually made. -/
def probeChips (ok : String → Bool) : List String → Option String × Nat
  | [] => (none, 0)
  | p :: rest =>
    if ok p then (some p, 1)
    else
      let r := probeChips ok rest
      (r.1, r.2 + 1)

end Stoplight.Pi5

namespace Stoplight

/-- Controller-level events of the main loop shared by both variants:
    an all-lights-off call, a set_light_state call with its two colour
    arguments, a timed wait, and the final release of the backend handle
    (munmap in traffic_light.c, request release plus chip close in
    traffic_light_pi5.c). -/
inductive Event where
  | clearAll
  | setLight (a b : Char)
  | wait (us : Nat)
  | closeHandle
deriving DecidableEq, Repr

/-- The six phases of the main loop body, in source order: colour arguments
    passed to set_light_state and the duration of the following wait. -/
def phaseList : List (Char × Char × Nat) :=
  [('G', 'R', GREEN_TIME), ('Y', 'R', YELLOW_TIME), ('R', 'R', SAFETY_BUFFER),
   ('R', 'G', GREEN_TIME), ('R', 'Y', YELLOW_TIME), ('R', 'R', SAFETY_BUFFER)]

/-- Colour arguments of phase `p` of the cycle. -/
def phaseColors (p : Fin 6) : Char × Char :=
  ((phaseList.get ⟨p.1, p.2⟩).1, (phaseList.get ⟨p.1, p.2⟩).2.1)

/-- The phase-index successor of the cyclic six-phase FSM:
    the loop body returns to its first phase after the sixth. -/
def advance (i : Nat) : Nat := (i + 1) % 6

/-- One pass over (a suffix of) the phase list, as in the loop body of both
    main functions: each phase issues set_light_state, waits, then checks the
    cancellation flag and breaks if it is set. `cancel k` is the flag value
    observed at the k-th check of the run. Returns the events issued, the next
    check index, and whether the pass exited through a cancellation break. -/
def runPhases (cancel : Nat → Bool) : Nat → List (Char × Char × Nat) → List Event × Nat × Bool
  | k, [] => ([], k, false)
  | k, (a, b, d) :: rest =>
    let evs : List Event := [.setLight a b, .wait d]
    if cancel k then (evs, k + 1, true)
    else
      let r := runPhases cancel (k + 1) rest
      (evs ++ r.1, r.2.1, r.2.2)

/-- The main while loop: the while condition checks the flag, then the six
    phases run with their per-phase break checks. `fuel` bounds the number of
    iterations so the model is total; the real loop runs until cancelled. -/
def runLoop (cancel : Nat → Bool) : Nat → Nat → List Event × Nat × Bool
  | 0, k => ([], k, false)
  | fuel + 1, k =>
    if cancel k then ([], k + 1, true)
    else
      let r := runPhases cancel (k + 1) phaseList
      if r.2.2 then (r.1, r.2.1, true)
      else
        let r2 := runLoop cancel fuel r.2.1
        (r.1 ++ r2.1, r2.2.1, r2.2.2)

/-- Model of main in traffic_light.c. `memOpenOk` and `mmapOk` say whether
    opening /dev/mem and mapping the register page succeed; `cancel` is the
    observed cancellation-flag schedule and `fuel` bounds loop iterations.
    Result: exit code, controller event trace, and whether the FSM loop was
    reached. On success the trace is the startup all_lights_off, the loop
    events, then the cleanup all_lights_off followed by the handle release. -/
def mainRaw (memOpenOk mmapOk : Bool) (cancel : Nat → Bool) (fuel : Nat) :
    Nat × List Event × Bool :=
  if !memOpenOk then (1, [], false)
  else if !mmapOk then (1, [], false)
  else
    let r := runLoop cancel fuel 0
    (0, Event.clearAll :: r.1 ++ [Event.clearAll, Event.closeHandle], true)

/-- Model of main in traffic_light_pi5.c: the chip probe over the candidate
    paths, then the line-settings, line-config, request-config and line-request
    acquisition steps, each fatal on failure; on success the loop runs as in the
    raw variant and cleanup clears all lights once and releases the handle. -/
def mainPi5 (chipOk : String → Bool) (settingsOk lineCfgOk reqCfgOk requestOk : Bool)
    (cancel : Nat → Bool) (fuel : Nat) : Nat × List Event × Bool :=
  match (Pi5.probeChips chipOk Pi5.chip_paths).1 with
  | none => (1, [], false)
  | some _ =>
    if !settingsOk then (1, [], false)
    else if !lineCfgOk then (1, [], false)
    else if !reqCfgOk then (1, [], false)
    else if !requestOk then (1, [], false)
    else
      let r := runLoop cancel fuel 0
      (0, Event.clearAll :: r.1 ++ [Event.clearAll, Event.closeHandle], true)

/-- Mutable process state visible to the signal handler and the main control
    path: the keep_running flag, the GPIO output latch, and the cycle counter. -/
structure ProcState where
  keep_running : Int
  latch : Nat
  cycle : Int
deriving DecidableEq

/-- Process state at startup: keep_running is initialised to 1. -/
def initState (latch0 : Nat) : ProcState := ⟨1, latch0, 0⟩

/-- signal_handler from both controller variants: its body is the single
    assignment `keep_running = 0`. -/
def signal_handler (s : ProcState) : ProcState := { s with keep_running := 0 }

/-- The cancellation flag as the spec reads it: set when keep_running is 0. -/
def cancelled (s : ProcState) : Bool := decide (s.keep_running = 0)

/-- Atomic events acting on the process state: an arriving interrupt signal, a
    GPIO register store issued by the main path, and a cycle-counter bump. The
    main control path of both variants never writes keep_running. -/
inductive SysEv where
  | signal
  | gpioWrite (w : RegWrite)
  | tick

/-- Effect of one event on the process state. -/
def sysStep (s : ProcState) : SysEv → ProcState
  | .signal => signal_handler s
  | .gpioWrite w => { s with latch := applyWrite s.latch w }
  | .tick => { s with cycle := s.cycle + 1 }

/-- Run a sequence of events from a state. -/
def sysRun (s : ProcState) (evs : List SysEv) : ProcState := evs.foldl sysStep s

/-- Pins of street A in role order red, yellow, green. -/
def streetAPins : List Nat := [STREET_A_RED, STREET_A_YELLOW, STREET_A_GREEN]

/-- Pins of street B in role order red, yellow, green. -/
def streetBPins : List Nat := [STREET_B_RED, STREET_B_YELLOW, STREET_B_GREEN]

/-- Number of lit lamps of a street in the raw-backend latch. -/
def litCount (latch : Nat) (pins : List Nat) : Nat :=
  (pins.filter (fun p => latch.testBit p)).length

/-- The safety invariant on a raw-backend latch: at most one lit role per
    street, never both greens, never a green facing the other street's yellow. -/
def safeLights (latch : Nat) : Prop :=
  litCount latch streetAPins ≤ 1 ∧ litCount latch streetBPins ≤ 1 ∧
  ¬(latch.testBit STREET_A_GREEN = true ∧ latch.testBit STREET_B_GREEN = true) ∧
  ¬(latch.testBit STREET_A_GREEN = true ∧ latch.testBit STREET_B_YELLOW = true) ∧
  ¬(latch.testBit STREET_B_GREEN = true ∧ latch.testBit STREET_A_YELLOW = true)

/-- Latches reachable by the traffic_light.c controller: any inherited latch
    after the startup all_lights_off, then any sequence of set_light_state
    calls whose arguments come from the six-phase cycle. -/
inductive ReachableRaw : Nat → Prop where
  | init (l0 : Nat) : ReachableRaw (applyTrace l0 all_lights_off)
  | step (l : Nat) (p : Fin 6) (h : ReachableRaw l) :
      ReachableRaw (applyTrace l (set_light_state (phaseColors p).1 (phaseColors p).2))

/-- Number of lit lamps of a street in the line-request backend state. -/
def litCountPi5 (st : Nat → Nat) (pins : List Nat) : Nat :=
  (pins.filter (fun p => st p != 0)).length

/-- The safety invariant on a line-request backend state. -/
def safeLightsPi5 (st : Nat → Nat) : Prop :=
  litCountPi5 st streetAPins ≤ 1 ∧ litCountPi5 st streetBPins ≤ 1 ∧
  ¬(st STREET_A_GREEN ≠ 0 ∧ st STREET_B_GREEN ≠ 0) ∧
  ¬(st STREET_A_GREEN ≠ 0 ∧ st STREET_B_YELLOW ≠ 0) ∧
  ¬(st STREET_B_GREEN ≠ 0 ∧ st STREET_A_YELLOW ≠ 0)

/-- Line states reachable by the traffic_light_pi5.c controller. -/
inductive ReachablePi5 : (Nat → Nat) → Prop where
  | init (s0 : Nat → Nat) : ReachablePi5 (Pi5.applyLineOps s0 Pi5.all_lights_off)
  | step (st : Nat → Nat) (p : Fin 6) (h : ReachablePi5 st) :
      ReachablePi5 (Pi5.applyLineOps st (Pi5.set_light_state (phaseColors p).1 (phaseColors p).2))

set_option linter.unnecessarySeqFocus false

/-- Helper: the level of each of the six pins after a raw-backend
    set_light_state call is determined by the two colour arguments alone. -/
theorem set_light_state_bits (latch : Nat) (a b : Char) :
    (applyTrace latch (set_light_state a b)).testBit STREET_A_RED = decide (a = 'R') ∧
    (applyTrace latch (set_light_state a b)).testBit STREET_A_YELLOW = decide (a = 'Y') ∧
    (applyTrace latch (set_light_state a b)).testBit STREET_A_GREEN = decide (a = 'G') ∧
    (applyTrace latch (set_light_state a b)).testBit STREET_B_RED = decide (b = 'R') ∧
    (applyTrace latch (set_light_state a b)).testBit STREET_B_YELLOW = decide (b = 'Y') ∧
    (applyTrace latch (set_light_state a b)).testBit STREET_B_GREEN = decide (b = 'G') := by
  by_cases h1 : a = 'R' <;> by_cases h2 : a = 'Y' <;> by_cases h3 : a = 'G' <;>
  by_cases h4 : b = 'R' <;> by_cases h5 : b = 'Y' <;> by_cases h6 : b = 'G' <;>
  (simp [set_light_state, all_lights_off, applyTrace, applyWrite, h1, h2, h3, h4, h5, h6,
        gpio_set_high, gpio_clear_multiple, mask32, all_pins, GPSET0, GPCLR0,
        STREET_A_RED, STREET_A_YELLOW, STREET_A_GREEN, STREET_B_RED, STREET_B_YELLOW,
        STREET_B_GREEN] <;>
   simp [Nat.testBit])

/-- Helper: after the raw-backend all_lights_off all six pins are low. -/
theorem all_lights_off_bits (latch : Nat) :
    (applyTrace latch all_lights_off).testBit STREET_A_RED = false ∧
    (applyTrace latch all_lights_off).testBit STREET_A_YELLOW = false ∧
    (applyTrace latch all_lights_off).testBit STREET_A_GREEN = false ∧
    (applyTrace latch all_lights_off).testBit STREET_B_RED = false ∧
    (applyTrace latch all_lights_off).testBit STREET_B_YELLOW = false ∧
    (applyTrace latch all_lights_off).testBit STREET_B_GREEN = false := by
  simp [all_lights_off, applyTrace, applyWrite, gpio_clear_multiple, mask32, all_pins,
        GPSET0, GPCLR0, STREET_A_RED, STREET_A_YELLOW, STREET_A_GREEN, STREET_B_RED,
        STREET_B_YELLOW, STREET_B_GREEN] <;>
  simp [Nat.testBit]

/-- Helper: the value of each of the six lines after a line-request backend
    set_light_state call is determined by the two colour arguments alone. -/
theorem set_light_state_lines (st : Nat → Nat) (a b : Char) :
    Pi5.applyLineOps st (Pi5.set_light_state a b) STREET_A_RED = (if a = 'R' then 1 else 0) ∧
    Pi5.applyLineOps st (Pi5.set_light_state a b) STREET_A_YELLOW = (if a = 'Y' then 1 else 0) ∧
    Pi5.applyLineOps st (Pi5.set_light_state a b) STREET_A_GREEN = (if a = 'G' then 1 else 0) ∧
    Pi5.applyLineOps st (Pi5.set_light_state a b) STREET_B_RED = (if b = 'R' then 1 else 0) ∧
    Pi5.applyLineOps st (Pi5.set_light_state a b) STREET_B_YELLOW = (if b = 'Y' then 1 else 0) ∧
    Pi5.applyLineOps st (Pi5.set_light_state a b) STREET_B_GREEN = (if b = 'G' then 1 else 0) := by
  by_cases h1 : a = 'R' <;> by_cases h2 : a = 'Y' <;> by_cases h3 : a = 'G' <;>
  by_cases h4 : b = 'R' <;> by_cases h5 : b = 'Y' <;> by_cases h6 : b = 'G' <;>
  simp [Pi5.set_light_state, Pi5.all_lights_off, Pi5.offsets, Pi5.applyLineOps,
        Pi5.applyLineOp, Pi5.gpio_set_value_asm, h1, h2, h3, h4, h5, h6,
        STREET_A_RED, STREET_A_YELLOW, STREET_A_GREEN, STREET_B_RED, STREET_B_YELLOW,
        STREET_B_GREEN]

/-- Helper: after the line-request backend all_lights_off all six lines are 0. -/
theorem all_lights_off_lines (st : Nat → Nat) :
    Pi5.applyLineOps st Pi5.all_lights_off STREET_A_RED = 0 ∧
    Pi5.applyLineOps st Pi5.all_lights_off STREET_A_YELLOW = 0 ∧
    Pi5.applyLineOps st Pi5.all_lights_off STREET_A_GREEN = 0 ∧
    Pi5.applyLineOps st Pi5.all_lights_off STREET_B_RED = 0 ∧
    Pi5.applyLineOps st Pi5.all_lights_off STREET_B_YELLOW = 0 ∧
    Pi5.applyLineOps st Pi5.all_lights_off STREET_B_GREEN = 0 := by
  simp [Pi5.all_lights_off, Pi5.offsets, Pi5.applyLineOps, Pi5.applyLineOp,
        STREET_A_RED, STREET_A_YELLOW, STREET_A_GREEN, STREET_B_RED, STREET_B_YELLOW,
        STREET_B_GREEN]

end Stoplight

namespace Stoplight

/-- Helper: any set_light_state call whose colour pair avoids the two-green and
    green-facing-yellow combinations leaves the raw latch safe. -/
theorem safeLights_after_set (l : Nat) (a b : Char)
    (hGG : ¬(a = 'G' ∧ b = 'G')) (hGY : ¬(a = 'G' ∧ b = 'Y')) (hYG : ¬(a = 'Y' ∧ b = 'G')) :
    safeLights (applyTrace l (set_light_state a b)) := by
  obtain ⟨b1, b2, b3, b4, b5, b6⟩ := set_light_state_bits l a b
  by_cases h1 : a = 'R' <;> by_cases h2 : a = 'Y' <;> by_cases h3 : a = 'G' <;>
  by_cases h4 : b = 'R' <;> by_cases h5 : b = 'Y' <;> by_cases h6 : b = 'G' <;>
  simp_all [safeLights, litCount, streetAPins, streetBPins]

/-- Helper: the line-request analogue of safeLights_after_set. -/
theorem safeLightsPi5_after_set (st : Nat → Nat) (a b : Char)
    (hGG : ¬(a = 'G' ∧ b = 'G')) (hGY : ¬(a = 'G' ∧ b = 'Y')) (hYG : ¬(a = 'Y' ∧ b = 'G')) :
    safeLightsPi5 (Pi5.applyLineOps st (Pi5.set_light_state a b)) := by
  obtain ⟨b1, b2, b3, b4, b5, b6⟩ := set_light_state_lines st a b
  by_cases h1 : a = 'R' <;> by_cases h2 : a = 'Y' <;> by_cases h3 : a = 'G' <;>
  by_cases h4 : b = 'R' <;> by_cases h5 : b = 'Y' <;> by_cases h6 : b = 'G' <;>
  simp_all [safeLightsPi5, litCountPi5, streetAPins, streetBPins]

/-- C1: for every reachable state of either controller loop (after the initial
    all-lights-off and any sequence of set_light_state calls issued by the
    six-phase cycle) each street has at most one lit role, the two streets are
    never both green, and a green never faces the other street's yellow. -/
theorem C1_safety_invariant :
    (∀ l, ReachableRaw l → safeLights l) ∧
    (∀ st, ReachablePi5 st → safeLightsPi5 st) := by
  constructor
  · intro l h
    induction h with
    | init l0 =>
      obtain ⟨b1, b2, b3, b4, b5, b6⟩ := all_lights_off_bits l0
      simp_all [safeLights, litCount, streetAPins, streetBPins]
    | step l p h ih =>
      fin_cases p <;> (apply safeLights_after_set <;> decide)
  · intro st h
    induction h with
    | init s0 =>
      obtain ⟨b1, b2, b3, b4, b5, b6⟩ := all_lights_off_lines s0
      simp_all [safeLightsPi5, litCountPi5, streetAPins, streetBPins]
    | step st p h ih =>
      fin_cases p <;> (apply safeLightsPi5_after_set <;> decide)

/-- Witness for C1: the state right after the startup all-lights-off is
    reachable and safe, in both backend variants. -/
theorem C1_witness :
    safeLights (applyTrace 0 all_lights_off) ∧
    safeLightsPi5 (Pi5.applyLineOps (fun _ => 0) Pi5.all_lights_off) :=
  ⟨C1_safety_invariant.1 _ (ReachableRaw.init 0),
   C1_safety_invariant.2 _ (ReachablePi5.init (fun _ => 0))⟩

end Stoplight

namespace Stoplight

/-- Helper: every bit below 32 of the 32-bit all-ones word is set. -/
theorem testBit_ones32 (j : Nat) (hj : j < 32) : Nat.testBit 4294967295 j = true := by
  have h : (4294967295 : Nat) = 2 ^ 32 - 1 := by norm_num
  rw [h, Nat.testBit_two_pow_sub_one]
  simp [hj]

/-- Helper: reduction modulo 2^32 keeps every bit below 32. -/
theorem testBit_mod32 (x j : Nat) (hj : j < 32) : (x % 4294967296).testBit j = x.testBit j := by
  have h : (4294967296 : Nat) = 2 ^ 32 := by norm_num
  rw [h, Nat.testBit_mod_two_pow]
  simp [hj]

/-- Helper: gpio_set_output touches no word other than `pin / 10`. -/
theorem gpio_set_output_other_words (pin : Nat) (bank : Nat → Nat) (i : Nat)
    (hi : i ≠ pin / 10) : gpio_set_output pin bank i = bank i := by
  simp only [gpio_set_output]
  rw [if_neg hi]

/-- Helper: gpio_set_output sets the low bit of the 3-bit field at `(pin % 10) * 3`. -/
theorem gpio_set_output_field_low (pin : Nat) (bank : Nat → Nat) :
    (gpio_set_output pin bank (pin / 10)).testBit (pin % 10 * 3) = true := by
  simp [gpio_set_output, Nat.testBit_or, Nat.testBit_shiftLeft, Nat.sub_self]

/-- Helper: gpio_set_output clears the middle bit of the 3-bit field. -/
theorem gpio_set_output_field_mid (pin : Nat) (bank : Nat → Nat) :
    (gpio_set_output pin bank (pin / 10)).testBit (pin % 10 * 3 + 1) = false := by
  have h32 : pin % 10 * 3 + 1 < 32 := by omega
  have t71 : Nat.testBit 7 1 = true := by decide
  have t11 : Nat.testBit 1 1 = false := by decide
  simp [gpio_set_output, Nat.testBit_or, Nat.testBit_and, Nat.testBit_xor,
        Nat.testBit_shiftLeft, testBit_ones32, h32,
        Nat.add_sub_cancel_left, t71, t11]

/-- Helper: gpio_set_output clears the top bit of the 3-bit field. -/
theorem gpio_set_output_field_high (pin : Nat) (bank : Nat → Nat) :
    (gpio_set_output pin bank (pin / 10)).testBit (pin % 10 * 3 + 2) = false := by
  have h32 : pin % 10 * 3 + 2 < 32 := by omega
  have t72 : Nat.testBit 7 2 = true := by decide
  have t12 : Nat.testBit 1 2 = false := by decide
  simp [gpio_set_output, Nat.testBit_or, Nat.testBit_and, Nat.testBit_xor,
        Nat.testBit_shiftLeft, testBit_ones32, h32,
        Nat.add_sub_cancel_left, t72, t12]

/-- Helper: gpio_set_output leaves every bit of the selected word outside the
    3-bit field unchanged. -/
theorem gpio_set_output_word_frame (pin : Nat) (bank : Nat → Nat) (k : Nat)
    (hk : k < 32) (hout : k < pin % 10 * 3 ∨ pin % 10 * 3 + 2 < k) :
    (gpio_set_output pin bank (pin / 10)).testBit k = (bank (pin / 10)).testBit k := by
  rcases hout with hlt | hgt
  · have hle : decide (pin % 10 * 3 ≤ k) = false := by simp; omega
    simp [gpio_set_output, Nat.testBit_or, Nat.testBit_and, Nat.testBit_xor,
          Nat.testBit_shiftLeft, testBit_ones32, testBit_mod32, hk, hle]
  · have hle : decide (pin % 10 * 3 ≤ k) = true := by simp; omega
    have h7 : Nat.testBit 7 (k - pin % 10 * 3) = false := by
      apply Nat.testBit_lt_two_pow
      calc 7 < 2 ^ 3 := by decide
        _ ≤ 2 ^ (k - pin % 10 * 3) := Nat.pow_le_pow_right (by decide) (by omega)
    have h1 : Nat.testBit 1 (k - pin % 10 * 3) = false := by
      apply Nat.testBit_lt_two_pow
      calc 1 < 2 ^ 1 := by decide
        _ ≤ 2 ^ (k - pin % 10 * 3) := Nat.pow_le_pow_right (by decide) (by omega)
    simp [gpio_set_output, Nat.testBit_or, Nat.testBit_and, Nat.testBit_xor,
          Nat.testBit_shiftLeft, testBit_ones32, testBit_mod32, hk, hle, h7, h1]

/-- C5: the phase cycle is periodic with period 6 (advancing six times from any
    phase index returns to it) and the six phases occur in the fixed source
    order with no phase skipped, with their durations. -/
theorem C5_cycle_period :
    (∀ i, i < 6 → advance^[6] i = i) ∧
    phaseList.map (fun e => (e.1, e.2.1)) =
      [('G', 'R'), ('Y', 'R'), ('R', 'R'), ('R', 'G'), ('R', 'Y'), ('R', 'R')] ∧
    (runPhases (fun _ => false) 0 phaseList).1 =
      [.setLight 'G' 'R', .wait GREEN_TIME, .setLight 'Y' 'R', .wait YELLOW_TIME,
       .setLight 'R' 'R', .wait SAFETY_BUFFER, .setLight 'R' 'G', .wait GREEN_TIME,
       .setLight 'R' 'Y', .wait YELLOW_TIME, .setLight 'R' 'R', .wait SAFETY_BUFFER] := by
  refine ⟨by decide, by decide, by decide⟩

/-- Witness for C5: advancing six times from phase 2 returns to phase 2. -/
theorem C5_witness : advance^[6] 2 = 2 := C5_cycle_period.1 2 (by decide)

end Stoplight

namespace Stoplight

/-- Helper: for a pin below 32, the mask `1 << pin` has exactly bit `pin` set. -/
theorem mask32_testBit (p q : Nat) (hp : p < 32) : (mask32 p).testBit q = decide (q = p) := by
  unfold mask32
  by_cases hq : q = p
  · subst hq
    rw [Nat.testBit_mod_two_pow]
    simp [Nat.testBit_shiftLeft, hp, Nat.sub_self]
  · simp only [Nat.testBit_mod_two_pow, Nat.testBit_shiftLeft]
    rcases Nat.lt_or_ge q p with h | h
    · have hle : decide (p ≤ q) = false := by simp; omega
      simp [hle, hq]
    · have h1 : Nat.testBit 1 (q - p) = false := by
        apply Nat.testBit_lt_two_pow
        calc 1 < 2 ^ 1 := by decide
          _ ≤ 2 ^ (q - p) := Nat.pow_le_pow_right (by decide) (by omega)
      simp [h1, hq]

/-- C4: the function-select location for configuring a pin as output is word
    index `pin / 10` with a 3-bit field at bit offset `(pin % 10) * 3` written
    with pattern 0b001, all other bits and words unchanged; for pin 17 this is
    register index 1 and bit offset 21; the set register is word 7 and the
    clear register word 10, each addressed by bit `p` for pin `p`. -/
theorem C4_register_layout (pin : Nat) (bank : Nat → Nat) :
    (∀ i, i ≠ pin / 10 → gpio_set_output pin bank i = bank i) ∧
    (gpio_set_output pin bank (pin / 10)).testBit (pin % 10 * 3) = true ∧
    (gpio_set_output pin bank (pin / 10)).testBit (pin % 10 * 3 + 1) = false ∧
    (gpio_set_output pin bank (pin / 10)).testBit (pin % 10 * 3 + 2) = false ∧
    (∀ k, k < 32 → k < pin % 10 * 3 ∨ pin % 10 * 3 + 2 < k →
      (gpio_set_output pin bank (pin / 10)).testBit k = (bank (pin / 10)).testBit k) ∧
    ((∀ i, i ≠ 1 → gpio_set_output 17 bank i = bank i) ∧
      (gpio_set_output 17 bank 1).testBit 21 = true) ∧
    (∀ p, gpio_set_high p = RegWrite.store 7 (mask32 p) ∧
          gpio_set_low p = RegWrite.store 10 (mask32 p)) ∧
    (∀ p q, p < 32 → (mask32 p).testBit q = decide (q = p)) := by
  refine ⟨gpio_set_output_other_words pin bank, gpio_set_output_field_low pin bank,
          gpio_set_output_field_mid pin bank, gpio_set_output_field_high pin bank,
          fun k hk hout => gpio_set_output_word_frame pin bank k hk hout,
          ⟨fun i hi => gpio_set_output_other_words 17 bank i (by simpa using hi), ?_⟩,
          fun p => ⟨rfl, rfl⟩, fun p q hp => mask32_testBit p q hp⟩
  simpa using gpio_set_output_field_low 17 bank

/-- Witness for C4: the layout facts evaluated at pin 17 over the zero bank. -/
theorem C4_witness :
    gpio_set_output 17 (fun _ => 0) 0 = 0 ∧
    (gpio_set_output 17 (fun _ => 0) 1).testBit 21 = true ∧
    (gpio_set_output 17 (fun _ => 0) 1).testBit 25 = (0 : Nat).testBit 25 ∧
    (mask32 17).testBit 17 = decide ((17 : Nat) = 17) :=
  ⟨(C4_register_layout 17 (fun _ => 0)).1 0 (by decide),
   (C4_register_layout 17 (fun _ => 0)).2.2.2.2.2.1.2,
   (C4_register_layout 17 (fun _ => 0)).2.2.2.2.1 25 (by decide) (by right; decide),
   (C4_register_layout 17 (fun _ => 0)).2.2.2.2.2.2.2 17 17 (by decide)⟩
end Stoplight

namespace Stoplight

/-- C6: for every pin in the configured role set, raising then lowering the pin
    leaves its logical state low, and each of set-high/set-low targets only bit
    `p` of the set/clear register (raw variant) or only line `p` (line-request
    variant), leaving every other pin's state unchanged. -/
theorem C6_round_trip (p : Nat) (hp : p ∈ Pi5.offsets) (latch : Nat) (st : Nat → Nat) :
    gpio_set_high p = RegWrite.store GPSET0 (mask32 p) ∧
    gpio_set_low p = RegWrite.store GPCLR0 (mask32 p) ∧
    (∀ q, (mask32 p).testBit q = decide (q = p)) ∧
    (applyWrite (applyWrite latch (gpio_set_high p)) (gpio_set_low p)).testBit p = false ∧
    (∀ q, q < 32 → q ≠ p →
      (applyWrite latch (gpio_set_high p)).testBit q = latch.testBit q ∧
      (applyWrite (applyWrite latch (gpio_set_high p)) (gpio_set_low p)).testBit q =
        (applyWrite latch (gpio_set_high p)).testBit q) ∧
    Pi5.applyLineOp (Pi5.applyLineOp st (Pi5.gpio_set_value_asm p 1)) (Pi5.gpio_set_value_asm p 0) p = 0 ∧
    (∀ q, q ≠ p →
      Pi5.applyLineOp st (Pi5.gpio_set_value_asm p 1) q = st q ∧
      Pi5.applyLineOp (Pi5.applyLineOp st (Pi5.gpio_set_value_asm p 1)) (Pi5.gpio_set_value_asm p 0) q =
        Pi5.applyLineOp st (Pi5.gpio_set_value_asm p 1) q) := by
  have hp32 : p < 32 := by
    simp [Pi5.offsets, STREET_A_RED, STREET_A_YELLOW, STREET_A_GREEN,
          STREET_B_RED, STREET_B_YELLOW, STREET_B_GREEN] at hp
    omega
  have hm := fun q => mask32_testBit p q hp32
  refine ⟨rfl, rfl, hm, ?_, ?_, ?_, ?_⟩
  · simp [applyWrite, gpio_set_high, gpio_set_low, GPSET0, GPCLR0,
          Nat.testBit_and, Nat.testBit_or, Nat.testBit_xor, Nat.testBit_two_pow_sub_one,
          hm, hp32, testBit_ones32 p hp32]
  · intro q hq32 hqp
    constructor
    · simp [applyWrite, gpio_set_high, GPSET0, GPCLR0, Nat.testBit_or, hm, hqp]
    · simp [applyWrite, gpio_set_low, gpio_set_high, GPSET0, GPCLR0, Nat.testBit_and,
            Nat.testBit_xor, Nat.testBit_two_pow_sub_one, hm, hqp, hq32,
            testBit_ones32 q hq32]
  · simp [Pi5.applyLineOp, Pi5.gpio_set_value_asm]
  · intro q hqp
    constructor
    · simp [Pi5.applyLineOp, Pi5.gpio_set_value_asm, hqp]
    · simp [Pi5.applyLineOp, Pi5.gpio_set_value_asm, hqp]

/-- Witness for C6: the round trip evaluated at pin 17 from the all-low state. -/
theorem C6_witness :
    (applyWrite (applyWrite 0 (gpio_set_high 17)) (gpio_set_low 17)).testBit 17 = false ∧
    Pi5.applyLineOp (Pi5.applyLineOp (fun _ => 0) (Pi5.gpio_set_value_asm 17 1))
      (Pi5.gpio_set_value_asm 17 0) 17 = 0 ∧
    (applyWrite 0 (gpio_set_high 17)).testBit 22 = (0 : Nat).testBit 22 :=
  ⟨(C6_round_trip 17 (by decide) 0 (fun _ => 0)).2.2.2.1,
   (C6_round_trip 17 (by decide) 0 (fun _ => 0)).2.2.2.2.2.1,
   ((C6_round_trip 17 (by decide) 0 (fun _ => 0)).2.2.2.2.1 22 (by decide) (by decide)).1⟩

end Stoplight

namespace Stoplight

/-- C7: the chip probe tries the ordered candidate list and stops at the first
    success: if only the third candidate opens, the probe returns the third
    path after exactly three attempts (never a fourth); if no candidate opens,
    main reports failure with exit code 1 before entering the FSM. -/
theorem C7_probe_order :
    (∀ ok : String → Bool,
      ok "/dev/gpiochip0" = false → ok "/dev/gpiochip4" = false → ok "gpiochip0" = true →
      Pi5.probeChips ok Pi5.chip_paths = (some "gpiochip0", 3)) ∧
    (∀ ok : String → Bool, (∀ c ∈ Pi5.chip_paths, ok c = false) →
      ∀ sOk lOk rOk reqOk cancel fuel,
        mainPi5 ok sOk lOk rOk reqOk cancel fuel = (1, [], false)) := by
  constructor
  · intro ok h0 h4 hg
    simp [Pi5.probeChips, Pi5.chip_paths, h0, h4, hg]
  · intro ok hall sOk lOk rOk reqOk cancel fuel
    have h0 : ok "/dev/gpiochip0" = false := hall _ (by simp [Pi5.chip_paths])
    have h1 : ok "/dev/gpiochip4" = false := hall _ (by simp [Pi5.chip_paths])
    have h2 : ok "gpiochip0" = false := hall _ (by simp [Pi5.chip_paths])
    have h3 : ok "gpiochip4" = false := hall _ (by simp [Pi5.chip_paths])
    simp [mainPi5, Pi5.probeChips, Pi5.chip_paths, h0, h1, h2, h3]

/-- Witness for C7: a concrete oracle where only "gpiochip0" opens, and one
    where nothing opens. -/
theorem C7_witness :
    Pi5.probeChips (fun s => s == "gpiochip0") Pi5.chip_paths = (some "gpiochip0", 3) ∧
    mainPi5 (fun _ => false) true true true true (fun _ => false) 1 = (1, [], false) :=
  ⟨C7_probe_order.1 _ (by decide) (by decide) (by decide),
   C7_probe_order.2 _ (fun c _ => rfl) true true true true _ 1⟩

/-- C8: both variants exit with code 0 on (normal or interrupted) shutdown and
    with code 1 exactly when some resource-acquisition step fails, in which
    case the FSM loop is never reached. -/
theorem C8_exit_codes :
    (∀ memOk mmapOk cancel fuel,
      (mainRaw memOk mmapOk cancel fuel).1 = (if memOk && mmapOk then 0 else 1) ∧
      (mainRaw memOk mmapOk cancel fuel).2.2 = (memOk && mmapOk)) ∧
    (∀ chipOk sOk lOk rOk reqOk cancel fuel,
      (mainPi5 chipOk sOk lOk rOk reqOk cancel fuel).1 =
        (if (Pi5.probeChips chipOk Pi5.chip_paths).1.isSome && sOk && lOk && rOk && reqOk
         then 0 else 1) ∧
      (mainPi5 chipOk sOk lOk rOk reqOk cancel fuel).2.2 =
        ((Pi5.probeChips chipOk Pi5.chip_paths).1.isSome && sOk && lOk && rOk && reqOk)) := by
  constructor
  · intro memOk mmapOk cancel fuel
    cases memOk <;> cases mmapOk <;> simp [mainRaw]
  · intro chipOk sOk lOk rOk reqOk cancel fuel
    cases hpc : (Pi5.probeChips chipOk Pi5.chip_paths).1 <;>
    cases sOk <;> cases lOk <;> cases rOk <;> cases reqOk <;>
    simp [mainPi5, hpc]

/-- Helper: the events issued inside one pass over the phase list are only
    set_light_state calls and waits, never a cleanup clear or a handle release. -/
theorem runPhases_no_cleanup (cancel : Nat → Bool) :
    ∀ (ps : List (Char × Char × Nat)) (k : Nat),
      ((runPhases cancel k ps).1).count Event.clearAll = 0 ∧
      ((runPhases cancel k ps).1).count Event.closeHandle = 0 := by
  intro ps
  induction ps with
  | nil => intro k; simp [runPhases]
  | cons hd tl ih =>
    intro k
    obtain ⟨a, b, d⟩ := hd
    by_cases hk : cancel k = true
    · simp [runPhases, hk]
    · have h2 := ih (k + 1)
      simp [runPhases, hk, h2.1, h2.2]

/-- Helper: the main loop issues no cleanup clear and no handle release. -/
theorem runLoop_no_cleanup (cancel : Nat → Bool) :
    ∀ (fuel k : Nat),
      ((runLoop cancel fuel k).1).count Event.clearAll = 0 ∧
      ((runLoop cancel fuel k).1).count Event.closeHandle = 0 := by
  intro fuel
  induction fuel with
  | zero => intro k; simp [runLoop]
  | succ n ih =>
    intro k
    by_cases hk : cancel k = true
    · simp [runLoop, hk]
    · have hp := runPhases_no_cleanup cancel phaseList (k + 1)
      have h2 := ih (runPhases cancel (k + 1) phaseList).2.1
      by_cases hb : (runPhases cancel (k + 1) phaseList).2.2 = true
      · simp [runLoop, hk, hb, hp.1, hp.2]
      · simp [runLoop, hk, hb, hp.1, hp.2, h2.1, h2.2]

/-- C3: when the cancellation flag is observed during the loop, the whole main
    trace of either variant ends with exactly one final all-lights clear
    followed by exactly one handle release, and no release or cleanup clear
    occurs anywhere else (the only other clear is the startup one before the
    loop), regardless of which phase was interrupted. -/
theorem C3_shutdown_cleanup (cancel : Nat → Bool) (fuel : Nat)
    (_hcancel : (runLoop cancel fuel 0).2.2 = true) :
    ((mainRaw true true cancel fuel).2.1 =
        (Event.clearAll :: (runLoop cancel fuel 0).1) ++ [Event.clearAll, Event.closeHandle] ∧
      ((mainRaw true true cancel fuel).2.1).count Event.closeHandle = 1 ∧
      ((runLoop cancel fuel 0).1).count Event.clearAll = 0 ∧
      ((runLoop cancel fuel 0).1).count Event.closeHandle = 0) ∧
    (∀ chipOk pth, (Pi5.probeChips chipOk Pi5.chip_paths).1 = some pth →
      (mainPi5 chipOk true true true true cancel fuel).2.1 =
        (Event.clearAll :: (runLoop cancel fuel 0).1) ++ [Event.clearAll, Event.closeHandle] ∧
      ((mainPi5 chipOk true true true true cancel fuel).2.1).count Event.closeHandle = 1) := by
  have hR := runLoop_no_cleanup cancel fuel 0
  constructor
  · refine ⟨by simp [mainRaw], ?_, hR.1, hR.2⟩
    simp [mainRaw, hR.2]
  · intro chipOk pth hpc
    refine ⟨by simp [mainPi5, hpc], ?_⟩
    simp [mainPi5, hpc, hR.2]

/-- Witness for C3: cancellation observed at the very first check. -/
theorem C3_witness :
    ((mainRaw true true (fun _ => true) 1).2.1).count Event.closeHandle = 1 ∧
    ((mainPi5 (fun _ => true) true true true true (fun _ => true) 1).2.1).count
      Event.closeHandle = 1 :=
  ⟨(C3_shutdown_cleanup (fun _ => true) 1 (by decide)).1.2.1,
   ((C3_shutdown_cleanup (fun _ => true) 1 (by decide)).2 (fun _ => true)
      "/dev/gpiochip0" (by decide)).2⟩

end Stoplight

namespace Stoplight

/-- Helper: whether a system event is an arriving interrupt signal. -/
def isSignal : SysEv → Bool
  | .signal => true
  | .gpioWrite _ => false
  | .tick => false

/-- C9: the interrupt handler's only effect is setting the cancellation flag
    (the latch and cycle counter are untouched, so no I/O happens); the flag
    starts false, is raised exactly by signal events, and once true it stays
    true for the rest of the run. -/
theorem C9_handler_only_sets_flag :
    (∀ s, (signal_handler s).keep_running = 0 ∧
          (signal_handler s).latch = s.latch ∧
          (signal_handler s).cycle = s.cycle) ∧
    (∀ l0, cancelled (initState l0) = false) ∧
    (∀ s e, cancelled (sysStep s e) = (cancelled s || isSignal e)) ∧
    (∀ s evs, cancelled s = true → cancelled (sysRun s evs) = true) := by
  refine ⟨fun s => ⟨rfl, rfl, rfl⟩, fun l0 => rfl, ?_, ?_⟩
  · intro s e
    cases e <;> simp [sysStep, signal_handler, cancelled, isSignal]
  · intro s evs
    induction evs generalizing s with
    | nil => intro h; simpa [sysRun] using h
    | cons e tl ih =>
      intro h
      have hstep : cancelled (sysStep s e) = true := by
        cases e <;> simp [sysStep, signal_handler, cancelled, isSignal] <;>
        simpa [cancelled] using h
      simpa [sysRun] using ih (sysStep s e) hstep

/-- Witness for C9: the flag stays set across later events once the handler
    has run. -/
theorem C9_witness :
    cancelled (initState 0) = false ∧
    cancelled (sysStep (initState 0) SysEv.signal) = (cancelled (initState 0) || isSignal SysEv.signal) ∧
    cancelled (sysRun (signal_handler (initState 0)) [SysEv.tick, SysEv.signal]) = true :=
  ⟨C9_handler_only_sets_flag.2.1 0,
   C9_handler_only_sets_flag.2.2.1 (initState 0) SysEv.signal,
   C9_handler_only_sets_flag.2.2.2 (signal_handler (initState 0)) [SysEv.tick, SysEv.signal]
     (by decide)⟩

/-- C10: a colour argument outside R, Y, G leaves all three of that street's
    lamps off after set_light_state, and no call ever lights more than one
    lamp per street, in both backend variants. -/
theorem C10_unknown_color (a b : Char) (latch : Nat) (st : Nat → Nat) :
    (a ≠ 'R' → a ≠ 'Y' → a ≠ 'G' →
      (applyTrace latch (set_light_state a b)).testBit STREET_A_RED = false ∧
      (applyTrace latch (set_light_state a b)).testBit STREET_A_YELLOW = false ∧
      (applyTrace latch (set_light_state a b)).testBit STREET_A_GREEN = false ∧
      Pi5.applyLineOps st (Pi5.set_light_state a b) STREET_A_RED = 0 ∧
      Pi5.applyLineOps st (Pi5.set_light_state a b) STREET_A_YELLOW = 0 ∧
      Pi5.applyLineOps st (Pi5.set_light_state a b) STREET_A_GREEN = 0) ∧
    (b ≠ 'R' → b ≠ 'Y' → b ≠ 'G' →
      (applyTrace latch (set_light_state a b)).testBit STREET_B_RED = false ∧
      (applyTrace latch (set_light_state a b)).testBit STREET_B_YELLOW = false ∧
      (applyTrace latch (set_light_state a b)).testBit STREET_B_GREEN = false ∧
      Pi5.applyLineOps st (Pi5.set_light_state a b) STREET_B_RED = 0 ∧
      Pi5.applyLineOps st (Pi5.set_light_state a b) STREET_B_YELLOW = 0 ∧
      Pi5.applyLineOps st (Pi5.set_light_state a b) STREET_B_GREEN = 0) ∧
    litCount (applyTrace latch (set_light_state a b)) streetAPins ≤ 1 ∧
    litCount (applyTrace latch (set_light_state a b)) streetBPins ≤ 1 ∧
    litCountPi5 (Pi5.applyLineOps st (Pi5.set_light_state a b)) streetAPins ≤ 1 ∧
    litCountPi5 (Pi5.applyLineOps st (Pi5.set_light_state a b)) streetBPins ≤ 1 := by
  obtain ⟨b1, b2, b3, b4, b5, b6⟩ := set_light_state_bits latch a b
  obtain ⟨l1, l2, l3, l4, l5, l6⟩ := set_light_state_lines st a b
  refine ⟨?_, ?_, ?_, ?_, ?_, ?_⟩
  · intro h1 h2 h3
    simp_all
  · intro h1 h2 h3
    simp_all
  · by_cases h1 : a = 'R' <;> by_cases h2 : a = 'Y' <;> by_cases h3 : a = 'G' <;>
    simp_all [litCount, streetAPins]
  · by_cases h1 : b = 'R' <;> by_cases h2 : b = 'Y' <;> by_cases h3 : b = 'G' <;>
    simp_all [litCount, streetBPins]
  · by_cases h1 : a = 'R' <;> by_cases h2 : a = 'Y' <;> by_cases h3 : a = 'G' <;>
    simp_all [litCountPi5, streetAPins]
  · by_cases h1 : b = 'R' <;> by_cases h2 : b = 'Y' <;> by_cases h3 : b = 'G' <;>
    simp_all [litCountPi5, streetBPins]

/-- Witness for C10: the unrecognised colour argument X for street A. -/
theorem C10_witness :
    (applyTrace 0 (set_light_state 'X' 'G')).testBit STREET_A_RED = false ∧
    Pi5.applyLineOps (fun _ => 0) (Pi5.set_light_state 'X' 'G') STREET_A_GREEN = 0 ∧
    litCount (applyTrace 0 (set_light_state 'X' 'G')) streetBPins ≤ 1 :=
  ⟨((C10_unknown_color 'X' 'G' 0 (fun _ => 0)).1 (by decide) (by decide) (by decide)).1,
   ((C10_unknown_color 'X' 'G' 0 (fun _ => 0)).1 (by decide) (by decide) (by decide)).2.2.2.2.2,
   (C10_unknown_color 'X' 'G' 0 (fun _ => 0)).2.2.2.1⟩

/-- Counterexample for C2: entering phase 0 the raw variant issues two
    individual set-register stores (one per street), not exactly one batched
    set; and the line-request variant's all-lights-off is six individual
    per-line operations, not one batch. -/
theorem C2_counterexample :
    ((set_light_state 'G' 'R').filter
        (fun w => match w with | .store r _ => r == GPSET0)).length = 2 ∧
    ¬((set_light_state 'G' 'R').filter
        (fun w => match w with | .store r _ => r == GPSET0)).length = 1 ∧
    Pi5.all_lights_off.length = 6 ∧
    ¬Pi5.all_lights_off.length = 1 := by
  refine ⟨by decide, by decide, by decide, by decide⟩

/-- C2 (amended): on entering each phase the raw variant issues exactly one
    batched clear covering the full six-pin set followed by one individual
    single-pin set store per active role (at most two, one per street), while
    the line-request variant turns all lights off with six individual
    per-line writes followed by at most two individual per-line set writes;
    only the raw variant's all-lights-off is a single batch operation. -/
theorem C2_amended_batching :
    (List.finRange 6).map (fun p => set_light_state (phaseColors p).1 (phaseColors p).2) =
      [[gpio_clear_multiple all_pins, gpio_set_high STREET_A_GREEN, gpio_set_high STREET_B_RED],
       [gpio_clear_multiple all_pins, gpio_set_high STREET_A_YELLOW, gpio_set_high STREET_B_RED],
       [gpio_clear_multiple all_pins, gpio_set_high STREET_A_RED, gpio_set_high STREET_B_RED],
       [gpio_clear_multiple all_pins, gpio_set_high STREET_A_RED, gpio_set_high STREET_B_GREEN],
       [gpio_clear_multiple all_pins, gpio_set_high STREET_A_RED, gpio_set_high STREET_B_YELLOW],
       [gpio_clear_multiple all_pins, gpio_set_high STREET_A_RED, gpio_set_high STREET_B_RED]] ∧
    (List.finRange 6).map (fun p => Pi5.set_light_state (phaseColors p).1 (phaseColors p).2) =
      [Pi5.all_lights_off ++ [⟨STREET_A_GREEN, 1⟩, ⟨STREET_B_RED, 1⟩],
       Pi5.all_lights_off ++ [⟨STREET_A_YELLOW, 1⟩, ⟨STREET_B_RED, 1⟩],
       Pi5.all_lights_off ++ [⟨STREET_A_RED, 1⟩, ⟨STREET_B_RED, 1⟩],
       Pi5.all_lights_off ++ [⟨STREET_A_RED, 1⟩, ⟨STREET_B_GREEN, 1⟩],
       Pi5.all_lights_off ++ [⟨STREET_A_RED, 1⟩, ⟨STREET_B_YELLOW, 1⟩],
       Pi5.all_lights_off ++ [⟨STREET_A_RED, 1⟩, ⟨STREET_B_RED, 1⟩]] ∧
    Pi5.all_lights_off.length = 6 ∧
    all_lights_off = [gpio_clear_multiple all_pins] := by
  refine ⟨by decide, by decide, by decide, rfl⟩

end Stoplight
